import Mathlib

/-
Shallow embedding of the Indego bike-share ETL pipeline
(src/indego_trip_etl_solution.py) and proofs about its validation,
insertion and run-level behaviour.

Rows are modelled as association lists from column name to Python value,
in insertion order, matching the ordered dictionaries produced by
csv.DictReader (key order equals the CSV header order). Python exceptions
are modelled with Except: an uncaught exception in the source becomes an
error value that the embedded pipeline propagates to the top-level handler.
-/

namespace IndegoEtl

/-- Python runtime values that flow through pipeline rows: raw CSV strings,
converted integers, converted POSIX timestamps (floats with integral value,
modelled by their integer number of seconds), and the Python None that
csv.DictReader substitutes for missing trailing fields. -/
inductive PyVal where
  | str (s : String)
  | intv (n : Int)
  | floatv (n : Int)
  | pynone
deriving DecidableEq, Repr

/-- Python exceptions that the embedded code can raise. -/
inductive PyError where
  | keyError (k : String)
  | valueError
  | typeError
  | unboundLocalError
deriving DecidableEq, Repr

/-- Decidable equality for Except values, used to evaluate the embedded
code on concrete inputs. -/
instance {ε α : Type} [DecidableEq ε] [DecidableEq α] : DecidableEq (Except ε α) :=
  fun x y =>
    match x, y with
    | .ok a, .ok b =>
      if h : a = b then .isTrue (by rw [h])
      else .isFalse (by intro hc; cases hc; exact h rfl)
    | .ok _, .error _ => .isFalse (by intro hc; cases hc)
    | .error _, .ok _ => .isFalse (by intro hc; cases hc)
    | .error e, .error f =>
      if h : e = f then .isTrue (by rw [h])
      else .isFalse (by intro hc; cases hc; exact h rfl)

/-- Model of the Python str() coercion applied by convert_int and
convert_float to their argument. -/
def pyStr : PyVal → String
  | .str s => s
  | .intv n => toString n
  | .floatv n => toString n ++ ".0"
  | .pynone => "None"

/-- Model of Python str.isdigit on ASCII text: true exactly when the string
is nonempty and every character is a decimal digit. -/
def pyIsdigit (s : String) : Bool :=
  !s.data.isEmpty && s.data.all Char.isDigit

/-- Model of the Python membership test c in s on a string. -/
def containsChar (s : String) (c : Char) : Bool :=
  s.data.contains c

/-- Numeric value of a decimal digit string, as computed by Python int(). -/
def digitsToNat (s : String) : Nat :=
  s.data.foldl (fun a c => a * 10 + (c.toNat - 48)) 0

/-- Embedding of convert_int: return the integer value when str(s) is all
digits and contains no decimal point, otherwise Python None (modelled as
Option.none). -/
def convert_int (v : PyVal) : Option PyVal :=
  if pyIsdigit (pyStr v) && !(containsChar (pyStr v) '.') then
    some (.intv (digitsToNat (pyStr v)))
  else
    none

/-- Leap-year test of the proleptic Gregorian calendar used by datetime. -/
def isLeap (y : Nat) : Bool :=
  y % 4 == 0 && (y % 100 != 0 || y % 400 == 0)

/-- Number of days in a month, as validated by datetime.strptime. -/
def daysInMonth (y m : Nat) : Nat :=
  if m = 2 then (if isLeap y then 29 else 28)
  else if m = 4 ∨ m = 6 ∨ m = 9 ∨ m = 11 then 30
  else 31

/-- Days from 1970-01-01 to the given civil date (standard civil-calendar
day-number algorithm); negative for dates before the epoch. -/
def daysFromCivil (y m d : Nat) : Int :=
  let yy : Int := if m ≤ 2 then (y : Int) - 1 else (y : Int)
  let era : Int := yy / 400
  let yoe : Int := yy - era * 400
  let mp : Int := if 2 < m then (m : Int) - 3 else (m : Int) + 9
  let doy : Int := (153 * mp + 2) / 5 + (d : Int) - 1
  let doe : Int := yoe * 365 + yoe / 4 - yoe / 100 + doy
  era * 146097 + doe - 719468

/-- Numeric value of a decimal digit character. -/
def digitVal (c : Char) : Nat := c.toNat - 48

/-- Model of datetime.strptime with format %m/%d/%Y %H:%M followed by
.timestamp(), for the zero-padded pattern MM/DD/YYYY HH:MM: parse the five
numeric components, validate their ranges (month 1..12, day within the
month, hour 0..23, minute 0..59, year at least 1), and return the POSIX
seconds of the parsed civil time taken as UTC; none when the string does
not match or a component is out of range. -/
def parseTimestamp (s : String) : Option Int :=
  match s.data with
  | [m1, m2, c1, d1, d2, c2, y1, y2, y3, y4, sp, h1, h2, co, n1, n2] =>
    if c1 = '/' ∧ c2 = '/' ∧ sp = ' ' ∧ co = ':'
        ∧ m1.isDigit ∧ m2.isDigit ∧ d1.isDigit ∧ d2.isDigit
        ∧ y1.isDigit ∧ y2.isDigit ∧ y3.isDigit ∧ y4.isDigit
        ∧ h1.isDigit ∧ h2.isDigit ∧ n1.isDigit ∧ n2.isDigit then
      let month := 10 * digitVal m1 + digitVal m2
      let day := 10 * digitVal d1 + digitVal d2
      let year := 1000 * digitVal y1 + 100 * digitVal y2
                    + 10 * digitVal y3 + digitVal y4
      let hour := 10 * digitVal h1 + digitVal h2
      let minute := 10 * digitVal n1 + digitVal n2
      if 1 ≤ year ∧ 1 ≤ month ∧ month ≤ 12 ∧ 1 ≤ day
          ∧ day ≤ daysInMonth year month ∧ hour ≤ 23 ∧ minute ≤ 59 then
        some (daysFromCivil year month day * 86400
                + (hour : Int) * 3600 + (minute : Int) * 60)
      else none
    else none
  | _ => none

/-- Embedding of the body of the try block of _convert_posix_time:
datetime.strptime(value, value_format).timestamp(). strptime raises
TypeError on a non-string argument (None included) and ValueError on a
string that does not match the format. -/
def strptimeTimestamp (v : PyVal) : Except PyError Int :=
  match v with
  | .str s =>
    match parseTimestamp s with
    | some t => .ok t
    | none => .error .valueError
  | _ => .error .typeError

/-- Embedding of _convert_posix_time: the try/except Exception wrapper
catches every exception raised by the strptime call, logs it, and returns
Python None. -/
def _convert_posix_time (v : PyVal) : Option Int :=
  match strptimeTimestamp v with
  | .ok t => some t
  | .error _ => none

/-- Conversion stored back into the row by the posix-time loop of
field_checker: the float returned by .timestamp(). -/
def posixPy (v : PyVal) : Option PyVal :=
  (_convert_posix_time v).map PyVal.floatv

/-- A pipeline row: mapping from column name to value, in insertion order,
exactly as a Python dict produced by csv.DictReader. -/
abbrev Row := List (String × PyVal)

/-- Dictionary lookup row[k]: the value stored at the first matching key. -/
def lookup? (r : Row) (k : String) : Option PyVal :=
  match r with
  | [] => none
  | (k2, v) :: rest => if k2 = k then some v else lookup? rest k

/-- Dictionary assignment row[k] = v: replace the value at an existing key,
append the pair when the key is absent. -/
def setVal (r : Row) (k : String) (v : PyVal) : Row :=
  match r with
  | [] => [(k, v)]
  | (k2, w) :: rest => if k2 = k then (k2, v) :: rest else (k2, w) :: setVal rest k v

/-- Keys of dict_transform in insertion order. -/
def timeFields : List String := ["start_time", "end_time"]

/-- Keys of dict_field_types in insertion order. -/
def intFields : List String := ["trip_id", "duration", "bike_id", "plan_duration"]

/-- All columns governed by a conversion rule. -/
def governedFields : List String := timeFields ++ intFields

/-- One of the two for-loops of field_checker: walk the field list, read the
current value return_row[field] (an absent key raises KeyError, which the
source does not catch), convert it, and on success store the converted value
back into the row; a conversion returning None sets the error flag and
breaks out of the loop, modelled by returning Option.none for the row. -/
def checkLoop (conv : PyVal → Option PyVal) : List String → Row → Except PyError (Option Row)
  | [], r => .ok (some r)
  | k :: ks, r =>
    match lookup? r k with
    | none => .error (.keyError k)
    | some v =>
      match conv v with
      | none => .ok none
      | some w => checkLoop conv ks (setVal r k w)

/-- Rejection reason recorded by the two logging calls of field_checker. -/
inductive RejectReason where
  | invalidTimestamp
  | invalidNumericField
deriving DecidableEq, Repr

/-- Result of field_checker with the rejection reason made explicit. -/
inductive Outcome where
  | accepted (t : Row)
  | rejected (r : RejectReason)
deriving DecidableEq, Repr

/-- Embedding of field_checker over a copy of the raw row: the first loop
converts the posix-time fields in dict_transform order (a failure logs the
posix-time error and breaks), the second loop runs only when no error was
flagged and converts the integer fields in dict_field_types order (a failure
logs the invalid-data-type error and breaks). -/
def fieldCheckerR (row : Row) : Except PyError Outcome :=
  match checkLoop posixPy timeFields row with
  | .error e => .error e
  | .ok none => .ok (.rejected .invalidTimestamp)
  | .ok (some r1) =>
    match checkLoop convert_int intFields r1 with
    | .error e => .error e
    | .ok none => .ok (.rejected .invalidNumericField)
    | .ok (some r2) => .ok (.accepted r2)

/-- Embedding of field_checker as seen by its caller: a rejected row comes
back as Python None (the function falls off its end without returning), an
accepted row as the converted copy, and an uncaught KeyError propagates. -/
def field_checker (row : Row) : Except PyError (Option Row) :=
  match fieldCheckerR row with
  | .error e => .error e
  | .ok (.rejected _) => .ok none
  | .ok (.accepted t) => .ok (some t)

/-- Value of a field of the row, defaulting to Python None; only used in
statements whose hypotheses guarantee the key is present. -/
def valAt (r : Row) (k : String) : PyVal :=
  (lookup? r k).getD .pynone

/-- A row is fully typed on the governed columns: every timestamp field
holds a converted float and every integer field a converted integer. -/
def governedTyped (t : Row) : Prop :=
  (∀ k ∈ timeFields, ∃ n : Int, lookup? t k = some (.floatv n)) ∧
  (∀ k ∈ intFields, ∃ n : Int, lookup? t k = some (.intv n))

/-- Embedding of transform: yield the rows field_checker accepted, in input
order, dropping rejected ones; an exception from field_checker propagates
out of the generator and aborts the enclosing iteration. -/
def transformRows : List Row → Except PyError (List Row)
  | [] => .ok []
  | r :: rs =>
    match field_checker r with
    | .error e => .error e
    | .ok none => transformRows rs
    | .ok (some t) =>
      match transformRows rs with
      | .error e => .error e
      | .ok ts => .ok (t :: ts)

/-- A stored row of the trips table: the positional tuple of inserted
values. -/
abbrev DbRow := List PyVal

/-- Contents of the trips table. -/
abbrev Table := List DbRow

/-- Columns of the trips table in the order declared by the CREATE TABLE
statement of create_db; trip_id is the integer primary key. -/
def tableColumns : List String :=
  ["trip_id", "duration", "start_time", "end_time", "start_station",
   "start_lat", "start_lon", "end_station", "end_lat", "end_lon",
   "bike_id", "plan_duration", "trip_route_category", "passholder_type",
   "bike_type"]

/-- Parameter tuple of the INSERT: tuple(t.values()), the values of the row
in its own key order, which is the CSV header order. -/
def rowValues (t : Row) : List PyVal :=
  t.map Prod.snd

/-- Value that the positional INSERT places into a given destination column:
the parameter whose position equals the column's position in the CREATE
TABLE column list. -/
def insertedValueFor (t : Row) (col : String) : Option PyVal :=
  (rowValues t)[tableColumns.indexOf col]?

/-- Whether sqlite refuses the INSERT of this parameter tuple: wrong arity
for the fifteen placeholders, a value that is not an integer for the integer
primary key, or a trip_id equal to an already stored row's trip_id (UNIQUE
constraint of the primary key). -/
def insertFails (tbl : Table) (vals : List PyVal) : Bool :=
  vals.length != 15 ||
    (match vals[0]? with
     | some (PyVal.intv k) => tbl.any (fun r => r[0]? == some (PyVal.intv k))
     | _ => true)

/-- One iteration of the loop of load: a falsy (empty) row is not inserted;
otherwise the insert is attempted and a failure is caught, logged and
skipped, leaving the table unchanged. -/
def loadStep (tbl : Table) (t : Row) : Table :=
  if t.isEmpty then tbl
  else if insertFails tbl (rowValues t) then tbl
  else tbl ++ [rowValues t]

/-- Embedding of load: insert each truthy row catching per-row failures,
commit, then run the final select through cur. The first component is the
committed table (the commit precedes the select); the run raises
UnboundLocalError at the select when no truthy row was seen, because cur is
only ever assigned inside the loop body. -/
def loadRun (trips : List Row) (tbl : Table) : Table × Except PyError Unit :=
  (trips.foldl loadStep tbl,
   if trips.any (fun t => !t.isEmpty) then .ok () else .error .unboundLocalError)

/-- Persistent state of the destination store: none when the trips table
does not exist yet. -/
structure Store where
  table : Option Table
deriving DecidableEq, Repr

/-- Schema half of create_db: CREATE TABLE IF NOT EXISTS creates an empty
trips table only when it is absent and leaves an existing one untouched.
As DDL it takes effect independently of the run's transaction. -/
def ensureSchema (t : Option Table) : Option Table :=
  match t with
  | none => some []
  | some rows => some rows

/-- Purge half of create_db: DELETE FROM trips removes every stored row. -/
def deleteAll (t : Option Table) : Option Table :=
  match t with
  | none => none
  | some _ => some []

/-- Embedding of create_db as its committed effect on the store: create the
schema when absent, then delete all pre-existing rows. -/
def create_db (s : Store) : Store :=
  { table := deleteAll (ensureSchema s.table) }

/-- Embedding of one run of main on an already-extracted list of raw rows:
create_db, transform, load. The resulting store holds the committed table:
when transform raises (an uncaught KeyError) the commit inside load is never
reached, so the delete and any inserts roll back and only the schema
creation persists; otherwise the commit makes the delete plus the run's
inserts durable, and load can still raise UnboundLocalError after the
commit when it inserted no row. -/
def runPipeline (rows : List Row) (s : Store) : Store × Except PyError Unit :=
  let schemaTbl := (ensureSchema s.table).getD []
  match transformRows rows with
  | .error e => ({ table := some schemaTbl }, .error e)
  | .ok typed =>
    let res := loadRun typed []
    ({ table := some res.1 }, res.2)

/-- Exit code of the process: main returns 0 on completion and the
top-level handler exits with 1 on any uncaught exception. -/
def exitCode (rows : List Row) (s : Store) : Nat :=
  match (runPipeline rows s).2 with
  | .ok _ => 0
  | .error _ => 1

/-- A well-formed raw row whose header order equals the table column
order. -/
def rawInOrder : Row :=
  [("trip_id", .str "900"), ("duration", .str "600"),
   ("start_time", .str "06/01/2021 08:00"), ("end_time", .str "06/01/2021 08:10"),
   ("start_station", .str "3054"), ("start_lat", .str "39.95"),
   ("start_lon", .str "-75.16"), ("end_station", .str "3057"),
   ("end_lat", .str "39.94"), ("end_lon", .str "-75.17"),
   ("bike_id", .str "101"), ("plan_duration", .str "30"),
   ("trip_route_category", .str "One Way"), ("passholder_type", .str "Indego30"),
   ("bike_type", .str "standard")]

/-- The typed row field_checker produces from rawInOrder. -/
def typedInOrder : Row :=
  [("trip_id", .intv 900), ("duration", .intv 600),
   ("start_time", .floatv 1622534400), ("end_time", .floatv 1622535000),
   ("start_station", .str "3054"), ("start_lat", .str "39.95"),
   ("start_lon", .str "-75.16"), ("end_station", .str "3057"),
   ("end_lat", .str "39.94"), ("end_lon", .str "-75.17"),
   ("bike_id", .intv 101), ("plan_duration", .intv 30),
   ("trip_route_category", .str "One Way"), ("passholder_type", .str "Indego30"),
   ("bike_type", .str "standard")]

/-- The same record as rawInOrder, but coming from a CSV header that lists
duration before trip_id; every declared column name still exists. -/
def rawReordered : Row :=
  [("duration", .str "600"), ("trip_id", .str "900"),
   ("start_time", .str "06/01/2021 08:00"), ("end_time", .str "06/01/2021 08:10"),
   ("start_station", .str "3054"), ("start_lat", .str "39.95"),
   ("start_lon", .str "-75.16"), ("end_station", .str "3057"),
   ("end_lat", .str "39.94"), ("end_lon", .str "-75.17"),
   ("bike_id", .str "101"), ("plan_duration", .str "30"),
   ("trip_route_category", .str "One Way"), ("passholder_type", .str "Indego30"),
   ("bike_type", .str "standard")]

/-- The typed row field_checker produces from rawReordered: same key order
as the reordered header. -/
def typedReordered : Row :=
  [("duration", .intv 600), ("trip_id", .intv 900),
   ("start_time", .floatv 1622534400), ("end_time", .floatv 1622535000),
   ("start_station", .str "3054"), ("start_lat", .str "39.95"),
   ("start_lon", .str "-75.16"), ("end_station", .str "3057"),
   ("end_lat", .str "39.94"), ("end_lon", .str "-75.17"),
   ("bike_id", .intv 101), ("plan_duration", .intv 30),
   ("trip_route_category", .str "One Way"), ("passholder_type", .str "Indego30"),
   ("bike_type", .str "standard")]

/-- A raw row with every governed column present whose start_time does not
match the timestamp format. -/
def rawBadTs : Row :=
  [("trip_id", .str "900"), ("duration", .str "600"),
   ("start_time", .str "not-a-date"), ("end_time", .str "06/01/2021 08:10"),
   ("start_station", .str "3054"), ("start_lat", .str "39.95"),
   ("start_lon", .str "-75.16"), ("end_station", .str "3057"),
   ("end_lat", .str "39.94"), ("end_lon", .str "-75.17"),
   ("bike_id", .str "101"), ("plan_duration", .str "30"),
   ("trip_route_category", .str "One Way"), ("passholder_type", .str "Indego30"),
   ("bike_type", .str "standard")]

/-- A raw row with every governed column present whose trip_id carries a
decimal point. -/
def rawBadTrip : Row :=
  [("trip_id", .str "12.0"), ("duration", .str "600"),
   ("start_time", .str "06/01/2021 08:00"), ("end_time", .str "06/01/2021 08:10"),
   ("start_station", .str "3054"), ("start_lat", .str "39.95"),
   ("start_lon", .str "-75.16"), ("end_station", .str "3057"),
   ("end_lat", .str "39.94"), ("end_lon", .str "-75.17"),
   ("bike_id", .str "101"), ("plan_duration", .str "30"),
   ("trip_route_category", .str "One Way"), ("passholder_type", .str "Indego30"),
   ("bike_type", .str "standard")]

/-- A typed row that duplicates the trip_id of typedInOrder with different
remaining values. -/
def typedDup : Row :=
  [("trip_id", .intv 900), ("duration", .intv 999),
   ("start_time", .floatv 1622534400), ("end_time", .floatv 1622535000),
   ("start_station", .str "3060"), ("start_lat", .str "39.90"),
   ("start_lon", .str "-75.10"), ("end_station", .str "3061"),
   ("end_lat", .str "39.91"), ("end_lon", .str "-75.11"),
   ("bike_id", .intv 102), ("plan_duration", .intv 30),
   ("trip_route_category", .str "One Way"), ("passholder_type", .str "Day Pass"),
   ("bike_type", .str "standard")]

/-- A typed row with a fresh trip_id, inserted after the duplicate. -/
def typedNext : Row :=
  [("trip_id", .intv 901), ("duration", .intv 700),
   ("start_time", .floatv 1622534400), ("end_time", .floatv 1622535000),
   ("start_station", .str "3062"), ("start_lat", .str "39.92"),
   ("start_lon", .str "-75.12"), ("end_station", .str "3063"),
   ("end_lat", .str "39.93"), ("end_lon", .str "-75.13"),
   ("bike_id", .intv 103), ("plan_duration", .intv 365),
   ("trip_route_category", .str "Round Trip"), ("passholder_type", .str "Indego365"),
   ("bike_type", .str "electric")]

theorem lookup_set_self (r : Row) (k : String) (v : PyVal) :
    lookup? (setVal r k v) k = some v := by
  induction r with
  | nil => simp [setVal, lookup?]
  | cons hd tl ih =>
    obtain ⟨k2, w⟩ := hd
    by_cases h : k2 = k
    · simp [setVal, lookup?, h]
    · simp [setVal, lookup?, h, ih]

theorem lookup_set_other (r : Row) (k k2 : String) (v : PyVal) (h : k ≠ k2) :
    lookup? (setVal r k v) k2 = lookup? r k2 := by
  induction r with
  | nil => simp [setVal, lookup?, h]
  | cons hd tl ih =>
    obtain ⟨k3, w⟩ := hd
    by_cases h3 : k3 = k
    · subst h3
      simp [setVal, lookup?, h]
    · simp only [setVal, lookup?, if_neg h3]
      by_cases h4 : k3 = k2
      · simp [lookup?, h4]
      · simp [lookup?, h4, ih]

theorem checkLoop_cons_err (conv : PyVal → Option PyVal) (k : String) (ks : List String)
    (r : Row) (h : lookup? r k = none) :
    checkLoop conv (k :: ks) r = .error (.keyError k) := by
  simp [checkLoop, h]

theorem checkLoop_cons_fail (conv : PyVal → Option PyVal) (k : String) (ks : List String)
    (r : Row) (v : PyVal) (h : lookup? r k = some v) (hc : conv v = none) :
    checkLoop conv (k :: ks) r = .ok none := by
  simp [checkLoop, h, hc]

theorem checkLoop_cons_ok (conv : PyVal → Option PyVal) (k : String) (ks : List String)
    (r : Row) (v w : PyVal) (h : lookup? r k = some v) (hc : conv v = some w) :
    checkLoop conv (k :: ks) r = checkLoop conv ks (setVal r k w) := by
  simp [checkLoop, h, hc]

theorem checkLoop_ok (conv : PyVal → Option PyVal) (ks : List String) (r : Row)
    (hnd : ks.Nodup)
    (hall : ∀ k ∈ ks, ∃ v w, lookup? r k = some v ∧ conv v = some w) :
    ∃ r2, checkLoop conv ks r = .ok (some r2)
      ∧ (∀ k ∈ ks, ∃ v w, lookup? r k = some v ∧ conv v = some w ∧ lookup? r2 k = some w)
      ∧ (∀ k, k ∉ ks → lookup? r2 k = lookup? r k) := by
  induction ks generalizing r with
  | nil =>
    exact ⟨r, rfl, by simp, fun k _ => rfl⟩
  | cons k ks ih =>
    obtain ⟨hk, hksnd⟩ := List.nodup_cons.mp hnd
    obtain ⟨v, w, hv, hw⟩ := hall k (List.mem_cons_self k ks)
    have hall2 : ∀ k2 ∈ ks, ∃ v2 w2, lookup? (setVal r k w) k2 = some v2 ∧ conv v2 = some w2 := by
      intro k2 hk2
      have hne : k ≠ k2 := fun he => hk (he ▸ hk2)
      rw [lookup_set_other r k k2 w hne]
      exact hall k2 (List.mem_cons_of_mem k hk2)
    obtain ⟨r2, hrun, hmem, hpres⟩ := ih (setVal r k w) hksnd hall2
    refine ⟨r2, ?_, ?_, ?_⟩
    · rw [checkLoop_cons_ok conv k ks r v w hv hw]
      exact hrun
    · intro k2 hk2
      rcases List.mem_cons.mp hk2 with he | hk2
      · subst he
        refine ⟨v, w, hv, hw, ?_⟩
        rw [hpres k2 hk, lookup_set_self]
      · obtain ⟨v2, w2, h1, h2, h3⟩ := hmem k2 hk2
        have hne : k ≠ k2 := fun he => hk (he ▸ hk2)
        rw [lookup_set_other r k k2 w hne] at h1
        exact ⟨v2, w2, h1, h2, h3⟩
    · intro k2 hk2
      have hne : k ≠ k2 := fun he => hk2 (he ▸ List.mem_cons_self k ks)
      rw [hpres k2 (fun hm => hk2 (List.mem_cons_of_mem k hm)),
        lookup_set_other r k k2 w hne]

theorem checkLoop_fails (conv : PyVal → Option PyVal) (ks : List String) (r : Row)
    (hnd : ks.Nodup)
    (hkeys : ∀ k ∈ ks, (lookup? r k).isSome)
    (hex : ∃ k ∈ ks, conv (valAt r k) = none) :
    checkLoop conv ks r = .ok none := by
  induction ks generalizing r with
  | nil => simp at hex
  | cons k ks ih =>
    obtain ⟨hk, hksnd⟩ := List.nodup_cons.mp hnd
    obtain ⟨v, hv⟩ := Option.isSome_iff_exists.mp (hkeys k (List.mem_cons_self k ks))
    by_cases hcv : conv v = none
    · exact checkLoop_cons_fail conv k ks r v hv hcv
    · obtain ⟨w, hw⟩ := Option.ne_none_iff_exists'.mp hcv
      rw [checkLoop_cons_ok conv k ks r v w hv hw]
      apply ih (setVal r k w) hksnd
      · intro k2 hk2
        have hne : k ≠ k2 := fun he => hk (he ▸ hk2)
        rw [lookup_set_other r k k2 w hne]
        exact hkeys k2 (List.mem_cons_of_mem k hk2)
      · obtain ⟨kf, hkf, hcf⟩ := hex
        rcases List.mem_cons.mp hkf with he | hkf2
        · subst he
          exfalso
          apply hcv
          have : valAt r kf = v := by simp [valAt, hv]
          rw [← this]
          exact hcf
        · refine ⟨kf, hkf2, ?_⟩
          have hne : k ≠ kf := fun he => hk (he ▸ hkf2)
          simp only [valAt, lookup_set_other r k kf w hne]
          exact hcf

theorem checkLoop_no_error (conv : PyVal → Option PyVal) (ks : List String) (r : Row)
    (hnd : ks.Nodup)
    (hkeys : ∀ k ∈ ks, (lookup? r k).isSome) :
    ∃ o, checkLoop conv ks r = .ok o := by
  induction ks generalizing r with
  | nil => exact ⟨some r, rfl⟩
  | cons k ks ih =>
    obtain ⟨hk, hksnd⟩ := List.nodup_cons.mp hnd
    obtain ⟨v, hv⟩ := Option.isSome_iff_exists.mp (hkeys k (List.mem_cons_self k ks))
    cases hcv : conv v with
    | none => exact ⟨none, checkLoop_cons_fail conv k ks r v hv hcv⟩
    | some w =>
      rw [checkLoop_cons_ok conv k ks r v w hv hcv]
      apply ih (setVal r k w) hksnd
      intro k2 hk2
      have hne : k ≠ k2 := fun he => hk (he ▸ hk2)
      rw [lookup_set_other r k k2 w hne]
      exact hkeys k2 (List.mem_cons_of_mem k hk2)

theorem checkLoop_some_inv (conv : PyVal → Option PyVal) (ks : List String) (r r2 : Row)
    (hnd : ks.Nodup)
    (h : checkLoop conv ks r = .ok (some r2)) :
    (∀ k ∈ ks, ∃ v w, conv v = some w ∧ lookup? r2 k = some w)
    ∧ (∀ k, k ∉ ks → lookup? r2 k = lookup? r k) := by
  induction ks generalizing r with
  | nil =>
    simp only [checkLoop, Except.ok.injEq, Option.some.injEq] at h
    subst h
    exact ⟨by simp, fun _ _ => rfl⟩
  | cons k ks ih =>
    obtain ⟨hk, hksnd⟩ := List.nodup_cons.mp hnd
    cases hv : lookup? r k with
    | none =>
      rw [checkLoop_cons_err conv k ks r hv] at h
      cases h
    | some v =>
      cases hcv : conv v with
      | none =>
        rw [checkLoop_cons_fail conv k ks r v hv hcv] at h
        cases h
      | some w =>
        rw [checkLoop_cons_ok conv k ks r v w hv hcv] at h
        obtain ⟨hmem, hpres⟩ := ih (setVal r k w) hksnd h
        constructor
        · intro k2 hk2
          rcases List.mem_cons.mp hk2 with he | hk2
          · subst he
            refine ⟨v, w, hcv, ?_⟩
            rw [hpres k2 hk, lookup_set_self]
          · exact hmem k2 hk2
        · intro k2 hk2
          have hne : k ≠ k2 := fun he => hk2 (he ▸ List.mem_cons_self k ks)
          rw [hpres k2 (fun hm => hk2 (List.mem_cons_of_mem k hm)),
            lookup_set_other r k k2 w hne]

theorem posixPy_none (v : PyVal) (h : _convert_posix_time v = none) :
    posixPy v = none := by
  simp [posixPy, h]

theorem posixPy_some (v : PyVal) (t : Int) (h : _convert_posix_time v = some t) :
    posixPy v = some (.floatv t) := by
  simp [posixPy, h]

theorem posixPy_some_shape (v w : PyVal) (h : posixPy v = some w) :
    ∃ n : Int, w = .floatv n := by
  unfold posixPy at h
  cases hc : _convert_posix_time v with
  | none => rw [hc] at h; cases h
  | some t =>
    rw [hc] at h
    simp only [Option.map_some'] at h
    exact ⟨t, (Option.some.injEq _ _ ▸ h).symm⟩

theorem convert_int_some_shape (v w : PyVal) (h : convert_int v = some w) :
    ∃ n : Int, w = .intv n := by
  unfold convert_int at h
  split at h
  · exact ⟨_, (Option.some.injEq _ _ ▸ h).symm⟩
  · cases h

theorem all_digits_no_dot (l : List Char) (h : l.all Char.isDigit = true) :
    l.contains '.' = false := by
  induction l with
  | nil => rfl
  | cons c cs ih =>
    rw [List.all_cons, Bool.and_eq_true] at h
    obtain ⟨hc, hcs⟩ := h
    have hcne : (('.' : Char) == c) = false := by
      rw [beq_eq_false_iff_ne]
      intro he
      subst he
      simp [Char.isDigit] at hc
    rw [List.contains_cons, hcne, ih hcs]
    rfl

theorem pyIsdigit_iff (s : String) :
    pyIsdigit s = true ↔ (s.data ≠ [] ∧ ∀ c ∈ s.data, c.isDigit) := by
  unfold pyIsdigit
  rw [Bool.and_eq_true, Bool.not_eq_true', List.isEmpty_eq_false_iff_exists_mem,
    List.all_eq_true]
  constructor
  · rintro ⟨⟨x, hx⟩, hall⟩
    exact ⟨fun he => by simp [he] at hx, hall⟩
  · rintro ⟨hne, hall⟩
    refine ⟨?_, hall⟩
    cases hd : s.data with
    | nil => exact absurd hd hne
    | cons c cs => exact ⟨c, by simp [hd]⟩

theorem convert_int_of_isdigit (d : String) (hd : pyIsdigit d = true) :
    convert_int (.str d) = some (.intv (digitsToNat d)) := by
  have hall : d.data.all Char.isDigit = true := by
    rw [List.all_eq_true]
    exact ((pyIsdigit_iff d).mp hd).2
  have hdot : containsChar d '.' = false := all_digits_no_dot d.data hall
  simp [convert_int, pyStr, hd, hdot]

theorem convert_int_of_not_isdigit (d : String) (hd : pyIsdigit d = false) :
    convert_int (.str d) = none := by
  simp [convert_int, pyStr, hd]

theorem transform_skip (row : Row) (h : field_checker row = .ok none)
    (pre post : List Row) :
    transformRows (pre ++ row :: post) = transformRows (pre ++ post) := by
  induction pre with
  | nil => simp [transformRows, h]
  | cons r rs ih =>
    simp only [List.cons_append, transformRows]
    cases field_checker r with
    | error e => rfl
    | ok o =>
      cases o with
      | none => exact ih
      | some t =>
        have ih2 : transformRows (rs.append (row :: post)) = transformRows (rs.append post) := ih
        rw [ih2]

theorem transform_mem (rows out : List Row) (h : transformRows rows = .ok out) :
    ∀ t ∈ out, ∃ r ∈ rows, field_checker r = .ok (some t) := by
  induction rows generalizing out with
  | nil =>
    simp only [transformRows, Except.ok.injEq] at h
    subst h
    intro t ht
    cases ht
  | cons r rs ih =>
    simp only [transformRows] at h
    cases hfc : field_checker r with
    | error e => rw [hfc] at h; cases h
    | ok o =>
      rw [hfc] at h
      cases o with
      | none =>
        intro t ht
        obtain ⟨r2, hr2, hr2t⟩ := ih out h t ht
        exact ⟨r2, List.mem_cons_of_mem r hr2, hr2t⟩
      | some t1 =>
        cases hrest : transformRows rs with
        | error e => rw [hrest] at h; cases h
        | ok ts =>
          rw [hrest] at h
          simp only [Except.ok.injEq] at h
          subst h
          intro t ht
          rcases List.mem_cons.mp ht with he | ht2
          · subst he
            exact ⟨r, List.mem_cons_self r rs, hfc⟩
          · obtain ⟨r2, hr2, hr2t⟩ := ih ts hrest t ht2
            exact ⟨r2, List.mem_cons_of_mem r hr2, hr2t⟩

theorem field_checker_eq (row : Row) :
    field_checker row =
      match checkLoop posixPy timeFields row with
      | .error e => .error e
      | .ok none => .ok none
      | .ok (some r1) =>
        match checkLoop convert_int intFields r1 with
        | .error e => .error e
        | .ok none => .ok none
        | .ok (some r2) => .ok (some r2) := by
  cases h1 : checkLoop posixPy timeFields row with
  | error e => simp [field_checker, fieldCheckerR, h1]
  | ok o1 =>
    cases o1 with
    | none => simp [field_checker, fieldCheckerR, h1]
    | some r1 =>
      cases h2 : checkLoop convert_int intFields r1 with
      | error e => simp [field_checker, fieldCheckerR, h1, h2]
      | ok o2 =>
        cases o2 with
        | none => simp [field_checker, fieldCheckerR, h1, h2]
        | some r2 => simp [field_checker, fieldCheckerR, h1, h2]

theorem field_checker_some_inv (row t : Row)
    (h : field_checker row = .ok (some t)) :
    governedTyped t := by
  rw [field_checker_eq row] at h
  cases h1 : checkLoop posixPy timeFields row with
  | error e => simp [h1] at h
  | ok o1 =>
    cases o1 with
    | none => simp [h1] at h
    | some r1 =>
      simp only [h1] at h
      cases h2 : checkLoop convert_int intFields r1 with
      | error e => simp [h2] at h
      | ok o2 =>
        cases o2 with
        | none => simp [h2] at h
        | some r2 =>
          simp only [h2, Except.ok.injEq, Option.some.injEq] at h
          subst h
          obtain ⟨hmem1, _⟩ :=
            checkLoop_some_inv posixPy timeFields row r1 (by decide) h1
          obtain ⟨hmem2, hpres2⟩ :=
            checkLoop_some_inv convert_int intFields r1 r2 (by decide) h2
          constructor
          · intro k hk
            obtain ⟨v, w, hw, hl⟩ := hmem1 k hk
            obtain ⟨n, hn⟩ := posixPy_some_shape v w hw
            subst hn
            refine ⟨n, ?_⟩
            have hkn : k ∉ intFields := by
              simp only [timeFields, List.mem_cons, List.not_mem_nil, or_false] at hk
              rcases hk with rfl | rfl <;> decide
            rw [hpres2 k hkn]
            exact hl
          · intro k hk
            obtain ⟨v, w, hw, hl⟩ := hmem2 k hk
            obtain ⟨n, hn⟩ := convert_int_some_shape v w hw
            subst hn
            exact ⟨n, hl⟩

theorem int_not_time (k : String) (hk : k ∈ intFields) : k ∉ timeFields := by
  simp only [intFields, List.mem_cons, List.not_mem_nil, or_false] at hk
  rcases hk with rfl | rfl | rfl | rfl <;> decide

theorem lookup_set2_other (r : Row) (ka kb k : String) (va vb : PyVal)
    (ha : ka ≠ k) (hb : kb ≠ k) :
    lookup? (setVal (setVal r ka va) kb vb) k = lookup? r k := by
  rw [lookup_set_other _ kb k vb hb, lookup_set_other _ ka k va ha]

theorem timeLoop_ok_eq (row : Row) (v u : PyVal) (t t2 : Int)
    (hv : lookup? row "start_time" = some v) (ht : _convert_posix_time v = some t)
    (hu : lookup? row "end_time" = some u) (ht2 : _convert_posix_time u = some t2) :
    checkLoop posixPy timeFields row
      = .ok (some (setVal (setVal row "start_time" (.floatv t)) "end_time" (.floatv t2))) := by
  have h1 : checkLoop posixPy timeFields row
      = checkLoop posixPy ["end_time"] (setVal row "start_time" (.floatv t)) :=
    checkLoop_cons_ok posixPy "start_time" ["end_time"] row v (.floatv t) hv
      (posixPy_some v t ht)
  rw [h1]
  have hu2 : lookup? (setVal row "start_time" (.floatv t)) "end_time" = some u := by
    rw [lookup_set_other row "start_time" "end_time" (.floatv t) (by decide)]
    exact hu
  rw [checkLoop_cons_ok posixPy "end_time" [] (setVal row "start_time" (.floatv t)) u
    (.floatv t2) hu2 (posixPy_some u t2 ht2)]
  rfl

theorem intLoop_ok_eq (r : Row) (w1 w2 w3 w4 : PyVal) (i1 i2 i3 i4 : PyVal)
    (hv1 : lookup? r "trip_id" = some w1) (hc1 : convert_int w1 = some i1)
    (hv2 : lookup? r "duration" = some w2) (hc2 : convert_int w2 = some i2)
    (hv3 : lookup? r "bike_id" = some w3) (hc3 : convert_int w3 = some i3)
    (hv4 : lookup? r "plan_duration" = some w4) (hc4 : convert_int w4 = some i4) :
    checkLoop convert_int intFields r
      = .ok (some (setVal (setVal (setVal (setVal r "trip_id" i1) "duration" i2)
          "bike_id" i3) "plan_duration" i4)) := by
  have h1 : checkLoop convert_int intFields r
      = checkLoop convert_int ["duration", "bike_id", "plan_duration"] (setVal r "trip_id" i1) :=
    checkLoop_cons_ok convert_int "trip_id" ["duration", "bike_id", "plan_duration"] r w1 i1 hv1 hc1
  rw [h1]
  have hv2b : lookup? (setVal r "trip_id" i1) "duration" = some w2 := by
    rw [lookup_set_other r "trip_id" "duration" i1 (by decide)]
    exact hv2
  rw [checkLoop_cons_ok convert_int "duration" ["bike_id", "plan_duration"]
    (setVal r "trip_id" i1) w2 i2 hv2b hc2]
  have hv3b : lookup? (setVal (setVal r "trip_id" i1) "duration" i2) "bike_id" = some w3 := by
    rw [lookup_set2_other r "trip_id" "duration" "bike_id" i1 i2 (by decide) (by decide)]
    exact hv3
  rw [checkLoop_cons_ok convert_int "bike_id" ["plan_duration"]
    (setVal (setVal r "trip_id" i1) "duration" i2) w3 i3 hv3b hc3]
  have hv4b : lookup? (setVal (setVal (setVal r "trip_id" i1) "duration" i2) "bike_id" i3)
      "plan_duration" = some w4 := by
    rw [lookup_set_other _ "bike_id" "plan_duration" i3 (by decide),
      lookup_set2_other r "trip_id" "duration" "plan_duration" i1 i2 (by decide) (by decide)]
    exact hv4
  rw [checkLoop_cons_ok convert_int "plan_duration" []
    (setVal (setVal (setVal r "trip_id" i1) "duration" i2) "bike_id" i3) w4 i4 hv4b hc4]
  rfl

/-- C1: the code contradicts the claim. A Raw Row from which the governed
column start_time is absent makes field_checker raise KeyError instead of
treating the unresolvable access as a conversion failure, and the exception
propagates past the row boundary to the top-level handler, aborting the run
with exit code 1. -/
theorem field_checker_keyerror_on_missing_column :
    field_checker [("trip_id", PyVal.str "1")] = .error (.keyError "start_time")
    ∧ exitCode [[("trip_id", PyVal.str "1")]] { table := none } = 1 := by
  exact ⟨by decide, by decide⟩

/-- C2: the code contradicts the claim. With a readable input and a
reachable store, a run whose typed-row sequence is empty (a header-only
input, or an input in which every row is rejected) exits with code 1: the
select at the end of load references the loop variable cur, which was never
assigned, raising UnboundLocalError. A run that inserts at least one row
exits 0. -/
theorem pipeline_exit_on_empty_insert :
    exitCode [] { table := none } = 1
    ∧ transformRows [rawBadTs] = .ok []
    ∧ exitCode [rawBadTs] { table := none } = 1
    ∧ exitCode [rawInOrder] { table := none } = 0 := by
  exact ⟨by decide, by decide, by decide, by decide⟩

/-- C3 (counterexample): the claim fails on the code. For a header that
declares duration before trip_id, the validated Typed Row keeps that key
order, and the positional INSERT places the duration value 600 into the
trip_id column (position 0 of the fixed column order) instead of the row's
trip_id value 900. -/
theorem insert_misplaces_reordered_header :
    field_checker rawReordered = .ok (some typedReordered)
    ∧ insertedValueFor typedReordered "trip_id" = some (.intv 600)
    ∧ lookup? typedReordered "trip_id" = some (.intv 900)
    ∧ insertedValueFor typedReordered "trip_id" ≠ lookup? typedReordered "trip_id" := by
  exact ⟨by decide, by decide, by decide, by decide⟩

/-- C3 (amended): the Sink's INSERT is positional over the values in the
Typed Row's own key order (the input header order), so each field value
lands in the destination column of the fixed column order exactly when the
header order equals that column order; it does not reorder values by column
name. -/
theorem insert_positional_in_row_key_order
    (v0 v1 v2 v3 v4 v5 v6 v7 v8 v9 v10 v11 v12 v13 v14 : PyVal) :
    ∀ k ∈ tableColumns,
      insertedValueFor
        [("trip_id", v0), ("duration", v1), ("start_time", v2), ("end_time", v3),
         ("start_station", v4), ("start_lat", v5), ("start_lon", v6),
         ("end_station", v7), ("end_lat", v8), ("end_lon", v9),
         ("bike_id", v10), ("plan_duration", v11), ("trip_route_category", v12),
         ("passholder_type", v13), ("bike_type", v14)] k
      = lookup?
        [("trip_id", v0), ("duration", v1), ("start_time", v2), ("end_time", v3),
         ("start_station", v4), ("start_lat", v5), ("start_lon", v6),
         ("end_station", v7), ("end_lat", v8), ("end_lon", v9),
         ("bike_id", v10), ("plan_duration", v11), ("trip_route_category", v12),
         ("passholder_type", v13), ("bike_type", v14)] k := by
  intro k hk
  simp only [tableColumns, List.mem_cons, List.not_mem_nil, or_false] at hk
  rcases hk with rfl | rfl | rfl | rfl | rfl | rfl | rfl | rfl | rfl | rfl | rfl | rfl | rfl | rfl | rfl <;> rfl

/-- C3 (witness): on a Typed Row whose key order equals the table column
order, the INSERT places the duration field in the duration column. -/
theorem insert_positional_witness :
    insertedValueFor
      [("trip_id", PyVal.intv 900), ("duration", PyVal.intv 600),
       ("start_time", PyVal.floatv 1622534400), ("end_time", PyVal.floatv 1622535000),
       ("start_station", PyVal.str "3054"), ("start_lat", PyVal.str "39.95"),
       ("start_lon", PyVal.str "-75.16"), ("end_station", PyVal.str "3057"),
       ("end_lat", PyVal.str "39.94"), ("end_lon", PyVal.str "-75.17"),
       ("bike_id", PyVal.intv 101), ("plan_duration", PyVal.intv 30),
       ("trip_route_category", PyVal.str "One Way"), ("passholder_type", PyVal.str "Indego30"),
       ("bike_type", PyVal.str "standard")] "duration"
    = lookup?
      [("trip_id", PyVal.intv 900), ("duration", PyVal.intv 600),
       ("start_time", PyVal.floatv 1622534400), ("end_time", PyVal.floatv 1622535000),
       ("start_station", PyVal.str "3054"), ("start_lat", PyVal.str "39.95"),
       ("start_lon", PyVal.str "-75.16"), ("end_station", PyVal.str "3057"),
       ("end_lat", PyVal.str "39.94"), ("end_lon", PyVal.str "-75.17"),
       ("bike_id", PyVal.intv 101), ("plan_duration", PyVal.intv 30),
       ("trip_route_category", PyVal.str "One Way"), ("passholder_type", PyVal.str "Indego30"),
       ("bike_type", PyVal.str "standard")] "duration" :=
  insert_positional_in_row_key_order (.intv 900) (.intv 600)
    (.floatv 1622534400) (.floatv 1622535000) (.str "3054") (.str "39.95")
    (.str "-75.16") (.str "3057") (.str "39.94") (.str "-75.17") (.intv 101)
    (.intv 30) (.str "One Way") (.str "Indego30") (.str "standard")
    "duration" (by decide)

/-- C4: convert_int returns the integer value of a raw string exactly when
the string consists solely of decimal digits (which excludes any decimal
point), and returns no value otherwise without raising; in particular
"12.0" yields no value while "12" yields the integer 12. -/
theorem convert_int_digits_only :
    (∀ s : String,
      ((s.data ≠ [] ∧ ∀ c ∈ s.data, c.isDigit) →
        convert_int (.str s) = some (.intv (digitsToNat s)))
      ∧ (¬(s.data ≠ [] ∧ ∀ c ∈ s.data, c.isDigit) →
        convert_int (.str s) = none))
    ∧ convert_int (.str "12.0") = none
    ∧ convert_int (.str "12") = some (.intv 12) := by
  refine ⟨fun s => ⟨?_, ?_⟩, by decide, by decide⟩
  · intro hd
    exact convert_int_of_isdigit s ((pyIsdigit_iff s).mpr hd)
  · intro hd
    apply convert_int_of_not_isdigit
    cases hcase : pyIsdigit s with
    | false => rfl
    | true => exact absurd ((pyIsdigit_iff s).mp hcase) hd

/-- C4 (witness): the digits-only branch applied to the string 345. -/
theorem convert_int_digits_only_witness :
    convert_int (.str "345") = some (.intv 345) := by
  have h := (convert_int_digits_only.1 "345").1 (by decide)
  exact h.trans (by decide)

/-- C10: _convert_posix_time is total: whenever the wrapped strptime call
raises (unparseable string, or a non-string value such as None or an
integer, which raise TypeError), the exception is caught internally and
None is returned; when strptime succeeds its timestamp is returned. No
exception propagates to the caller. -/
theorem convert_posix_time_total :
    (∀ v : PyVal, (∃ e, strptimeTimestamp v = .error e) → _convert_posix_time v = none)
    ∧ (∀ (v : PyVal) (t : Int), strptimeTimestamp v = .ok t → _convert_posix_time v = some t)
    ∧ _convert_posix_time .pynone = none
    ∧ _convert_posix_time (.intv 5) = none
    ∧ _convert_posix_time (.floatv 7) = none := by
  refine ⟨?_, ?_, by decide, by decide, by decide⟩
  · rintro v ⟨e, he⟩
    unfold _convert_posix_time
    rw [he]
  · intro v t h
    unfold _convert_posix_time
    rw [h]

/-- C10 (witness): an unparseable string is caught and mapped to None. -/
theorem convert_posix_time_total_witness :
    _convert_posix_time (.str "bogus") = none :=
  convert_posix_time_total.1 (.str "bogus") ⟨.valueError, by decide⟩

/-- C7: an insert that fails (for example a trip_id duplicating an already
inserted row's trip_id within the same run) is caught and skipped, leaving
the table unchanged; every subsequent row in the sequence is still
attempted, and load still commits and completes without aborting. -/
theorem load_skips_failed_insert (pre post : List Row) (t : Row) (tbl0 : Table)
    (htne : t ≠ [])
    (hfail : insertFails (pre.foldl loadStep tbl0) (rowValues t) = true) :
    loadRun (pre ++ t :: post) tbl0
      = (post.foldl loadStep (pre.foldl loadStep tbl0), .ok ()) := by
  have hE : t.isEmpty = false := by
    cases t with
    | nil => exact absurd rfl htne
    | cons a l => rfl
  have htbl : (pre ++ t :: post).foldl loadStep tbl0
      = post.foldl loadStep (pre.foldl loadStep tbl0) := by
    rw [List.foldl_append]
    simp only [List.foldl_cons]
    have hskip : loadStep (pre.foldl loadStep tbl0) t = pre.foldl loadStep tbl0 := by
      simp [loadStep, hE, hfail]
    rw [hskip]
  have hany : ((pre ++ t :: post).any fun r => !r.isEmpty) = true := by
    apply List.any_eq_true.mpr
    exact ⟨t, by simp, by simp [hE]⟩
  unfold loadRun
  rw [htbl, hany]
  rfl

/-- C7 (witness): a duplicate trip_id between two good rows is skipped at
insert time; both other rows are inserted and the run completes. -/
theorem load_skips_failed_insert_witness :
    loadRun [typedInOrder, typedDup, typedNext] []
      = ([rowValues typedInOrder, rowValues typedNext], .ok ()) := by
  have h := load_skips_failed_insert [typedInOrder] [typedNext] typedDup []
    (by decide) (by decide)
  exact h.trans (by decide)

/-- C8: running the pipeline twice on the same input yields exactly the
state and outcome of running it once; create_db is idempotent; and whenever
transform succeeds, the committed table is independent of the pre-existing
store contents, because every run deletes all prior rows before inserting
(full refresh, not append). -/
theorem pipeline_full_refresh_idempotent :
    (∀ s : Store, create_db (create_db s) = create_db s)
    ∧ (∀ (rows : List Row) (s : Store),
        runPipeline rows ((runPipeline rows s).1) = runPipeline rows s)
    ∧ (∀ (rows : List Row) (s1 s2 : Store) (typed : List Row),
        transformRows rows = .ok typed →
        (runPipeline rows s1).1 = (runPipeline rows s2).1) := by
  refine ⟨?_, ?_, ?_⟩
  · intro s
    obtain ⟨t⟩ := s
    cases t <;> rfl
  · intro rows s
    cases h : transformRows rows with
    | error e => simp [runPipeline, h, ensureSchema]
    | ok typed => simp [runPipeline, h]
  · intro rows s1 s2 typed h
    simp [runPipeline, h]

/-- C8 (witness): the committed table after a run over one valid row is the
same whether the store previously held rows or no table at all. -/
theorem pipeline_full_refresh_witness :
    (runPipeline [rawInOrder] { table := some [rowValues typedDup] }).1
      = (runPipeline [rawInOrder] { table := none }).1 :=
  pipeline_full_refresh_idempotent.2.2 [rawInOrder]
    { table := some [rowValues typedDup] } { table := none } [typedInOrder] (by decide)

/-- C9: field_checker applies the timestamp rules first, in the fixed order
start_time then end_time, short-circuiting with the invalid-timestamp
reason at the first failing timestamp (no later field of the row is read),
and applies the integer rules, in the fixed order trip_id, duration,
bike_id, plan_duration with the invalid-numeric reason, only when both
timestamps converted; in particular a row with both an invalid timestamp
and an invalid integer field is rejected with the timestamp reason. -/
theorem validate_order_short_circuit (row : Row) :
    (∀ v, lookup? row "start_time" = some v → _convert_posix_time v = none →
      fieldCheckerR row = .ok (.rejected .invalidTimestamp))
    ∧ (∀ v t u, lookup? row "start_time" = some v → _convert_posix_time v = some t →
        lookup? row "end_time" = some u → _convert_posix_time u = none →
        fieldCheckerR row = .ok (.rejected .invalidTimestamp))
    ∧ (∀ v t u t2 w1, lookup? row "start_time" = some v → _convert_posix_time v = some t →
        lookup? row "end_time" = some u → _convert_posix_time u = some t2 →
        lookup? row "trip_id" = some w1 → convert_int w1 = none →
        fieldCheckerR row = .ok (.rejected .invalidNumericField))
    ∧ (∀ v t u t2 w1 i1 w2, lookup? row "start_time" = some v → _convert_posix_time v = some t →
        lookup? row "end_time" = some u → _convert_posix_time u = some t2 →
        lookup? row "trip_id" = some w1 → convert_int w1 = some i1 →
        lookup? row "duration" = some w2 → convert_int w2 = none →
        fieldCheckerR row = .ok (.rejected .invalidNumericField))
    ∧ (∀ v t u t2 w1 i1 w2 i2 w3, lookup? row "start_time" = some v → _convert_posix_time v = some t →
        lookup? row "end_time" = some u → _convert_posix_time u = some t2 →
        lookup? row "trip_id" = some w1 → convert_int w1 = some i1 →
        lookup? row "duration" = some w2 → convert_int w2 = some i2 →
        lookup? row "bike_id" = some w3 → convert_int w3 = none →
        fieldCheckerR row = .ok (.rejected .invalidNumericField))
    ∧ (∀ v t u t2 w1 i1 w2 i2 w3 i3 w4, lookup? row "start_time" = some v → _convert_posix_time v = some t →
        lookup? row "end_time" = some u → _convert_posix_time u = some t2 →
        lookup? row "trip_id" = some w1 → convert_int w1 = some i1 →
        lookup? row "duration" = some w2 → convert_int w2 = some i2 →
        lookup? row "bike_id" = some w3 → convert_int w3 = some i3 →
        lookup? row "plan_duration" = some w4 → convert_int w4 = none →
        fieldCheckerR row = .ok (.rejected .invalidNumericField)) := by
  refine ⟨?_, ?_, ?_, ?_, ?_, ?_⟩
  · intro v hv hn
    have h1 : checkLoop posixPy timeFields row = .ok none :=
      checkLoop_cons_fail posixPy "start_time" ["end_time"] row v hv (posixPy_none v hn)
    simp [fieldCheckerR, h1]
  · intro v t u hv ht hu hn
    have h1 : checkLoop posixPy timeFields row
        = checkLoop posixPy ["end_time"] (setVal row "start_time" (.floatv t)) :=
      checkLoop_cons_ok posixPy "start_time" ["end_time"] row v (.floatv t) hv
        (posixPy_some v t ht)
    have hu2 : lookup? (setVal row "start_time" (.floatv t)) "end_time" = some u := by
      rw [lookup_set_other row "start_time" "end_time" (.floatv t) (by decide)]
      exact hu
    have h2 : checkLoop posixPy ["end_time"] (setVal row "start_time" (.floatv t)) = .ok none :=
      checkLoop_cons_fail posixPy "end_time" [] _ u hu2 (posixPy_none u hn)
    simp [fieldCheckerR, h1, h2]
  · intro v t u t2 w1 hv ht hu ht2 hw1 hn
    have h1 := timeLoop_ok_eq row v u t t2 hv ht hu ht2
    have hw1b : lookup? (setVal (setVal row "start_time" (.floatv t)) "end_time" (.floatv t2))
        "trip_id" = some w1 := by
      rw [lookup_set2_other row "start_time" "end_time" "trip_id" _ _ (by decide) (by decide)]
      exact hw1
    have h2 : checkLoop convert_int intFields
        (setVal (setVal row "start_time" (.floatv t)) "end_time" (.floatv t2)) = .ok none :=
      checkLoop_cons_fail convert_int "trip_id" ["duration", "bike_id", "plan_duration"]
        _ w1 hw1b hn
    simp [fieldCheckerR, h1, h2]
  · intro v t u t2 w1 i1 w2 hv ht hu ht2 hw1 hi1 hw2 hn
    have h1 := timeLoop_ok_eq row v u t t2 hv ht hu ht2
    set r1 := setVal (setVal row "start_time" (PyVal.floatv t)) "end_time" (PyVal.floatv t2)
      with hr1
    have hw1b : lookup? r1 "trip_id" = some w1 := by
      rw [hr1, lookup_set2_other row "start_time" "end_time" "trip_id" _ _ (by decide) (by decide)]
      exact hw1
    have h2a : checkLoop convert_int intFields r1
        = checkLoop convert_int ["duration", "bike_id", "plan_duration"] (setVal r1 "trip_id" i1) :=
      checkLoop_cons_ok convert_int "trip_id" ["duration", "bike_id", "plan_duration"]
        r1 w1 i1 hw1b hi1
    have hw2b : lookup? (setVal r1 "trip_id" i1) "duration" = some w2 := by
      rw [lookup_set_other r1 "trip_id" "duration" i1 (by decide), hr1,
        lookup_set2_other row "start_time" "end_time" "duration" _ _ (by decide) (by decide)]
      exact hw2
    have h2b : checkLoop convert_int ["duration", "bike_id", "plan_duration"]
        (setVal r1 "trip_id" i1) = .ok none :=
      checkLoop_cons_fail convert_int "duration" ["bike_id", "plan_duration"]
        _ w2 hw2b hn
    simp [fieldCheckerR, h1, h2a, h2b]
  · intro v t u t2 w1 i1 w2 i2 w3 hv ht hu ht2 hw1 hi1 hw2 hi2 hw3 hn
    have h1 := timeLoop_ok_eq row v u t t2 hv ht hu ht2
    set r1 := setVal (setVal row "start_time" (PyVal.floatv t)) "end_time" (PyVal.floatv t2)
      with hr1
    have hw1b : lookup? r1 "trip_id" = some w1 := by
      rw [hr1, lookup_set2_other row "start_time" "end_time" "trip_id" _ _ (by decide) (by decide)]
      exact hw1
    have h2a : checkLoop convert_int intFields r1
        = checkLoop convert_int ["duration", "bike_id", "plan_duration"] (setVal r1 "trip_id" i1) :=
      checkLoop_cons_ok convert_int "trip_id" ["duration", "bike_id", "plan_duration"]
        r1 w1 i1 hw1b hi1
    have hw2b : lookup? (setVal r1 "trip_id" i1) "duration" = some w2 := by
      rw [lookup_set_other r1 "trip_id" "duration" i1 (by decide), hr1,
        lookup_set2_other row "start_time" "end_time" "duration" _ _ (by decide) (by decide)]
      exact hw2
    have h2b : checkLoop convert_int ["duration", "bike_id", "plan_duration"]
        (setVal r1 "trip_id" i1)
        = checkLoop convert_int ["bike_id", "plan_duration"]
            (setVal (setVal r1 "trip_id" i1) "duration" i2) :=
      checkLoop_cons_ok convert_int "duration" ["bike_id", "plan_duration"]
        (setVal r1 "trip_id" i1) w2 i2 hw2b hi2
    have hw3b : lookup? (setVal (setVal r1 "trip_id" i1) "duration" i2) "bike_id" = some w3 := by
      rw [lookup_set2_other r1 "trip_id" "duration" "bike_id" i1 i2 (by decide) (by decide), hr1,
        lookup_set2_other row "start_time" "end_time" "bike_id" _ _ (by decide) (by decide)]
      exact hw3
    have h2c : checkLoop convert_int ["bike_id", "plan_duration"]
        (setVal (setVal r1 "trip_id" i1) "duration" i2) = .ok none :=
      checkLoop_cons_fail convert_int "bike_id" ["plan_duration"]
        _ w3 hw3b hn
    simp [fieldCheckerR, h1, h2a, h2b, h2c]
  · intro v t u t2 w1 i1 w2 i2 w3 i3 w4 hv ht hu ht2 hw1 hi1 hw2 hi2 hw3 hi3 hw4 hn
    have h1 := timeLoop_ok_eq row v u t t2 hv ht hu ht2
    set r1 := setVal (setVal row "start_time" (PyVal.floatv t)) "end_time" (PyVal.floatv t2)
      with hr1
    have hw1b : lookup? r1 "trip_id" = some w1 := by
      rw [hr1, lookup_set2_other row "start_time" "end_time" "trip_id" _ _ (by decide) (by decide)]
      exact hw1
    have h2a : checkLoop convert_int intFields r1
        = checkLoop convert_int ["duration", "bike_id", "plan_duration"] (setVal r1 "trip_id" i1) :=
      checkLoop_cons_ok convert_int "trip_id" ["duration", "bike_id", "plan_duration"]
        r1 w1 i1 hw1b hi1
    have hw2b : lookup? (setVal r1 "trip_id" i1) "duration" = some w2 := by
      rw [lookup_set_other r1 "trip_id" "duration" i1 (by decide), hr1,
        lookup_set2_other row "start_time" "end_time" "duration" _ _ (by decide) (by decide)]
      exact hw2
    have h2b : checkLoop convert_int ["duration", "bike_id", "plan_duration"]
        (setVal r1 "trip_id" i1)
        = checkLoop convert_int ["bike_id", "plan_duration"]
            (setVal (setVal r1 "trip_id" i1) "duration" i2) :=
      checkLoop_cons_ok convert_int "duration" ["bike_id", "plan_duration"]
        (setVal r1 "trip_id" i1) w2 i2 hw2b hi2
    have hw3b : lookup? (setVal (setVal r1 "trip_id" i1) "duration" i2) "bike_id" = some w3 := by
      rw [lookup_set2_other r1 "trip_id" "duration" "bike_id" i1 i2 (by decide) (by decide), hr1,
        lookup_set2_other row "start_time" "end_time" "bike_id" _ _ (by decide) (by decide)]
      exact hw3
    have h2c : checkLoop convert_int ["bike_id", "plan_duration"]
        (setVal (setVal r1 "trip_id" i1) "duration" i2)
        = checkLoop convert_int ["plan_duration"]
            (setVal (setVal (setVal r1 "trip_id" i1) "duration" i2) "bike_id" i3) :=
      checkLoop_cons_ok convert_int "bike_id" ["plan_duration"]
        (setVal (setVal r1 "trip_id" i1) "duration" i2) w3 i3 hw3b hi3
    have hw4b : lookup? (setVal (setVal (setVal r1 "trip_id" i1) "duration" i2) "bike_id" i3)
        "plan_duration" = some w4 := by
      rw [lookup_set_other _ "bike_id" "plan_duration" i3 (by decide),
        lookup_set2_other r1 "trip_id" "duration" "plan_duration" i1 i2 (by decide) (by decide),
        hr1,
        lookup_set2_other row "start_time" "end_time" "plan_duration" _ _ (by decide) (by decide)]
      exact hw4
    have h2d : checkLoop convert_int ["plan_duration"]
        (setVal (setVal (setVal r1 "trip_id" i1) "duration" i2) "bike_id" i3) = .ok none :=
      checkLoop_cons_fail convert_int "plan_duration" []
        _ w4 hw4b hn
    simp [fieldCheckerR, h1, h2a, h2b, h2c, h2d]

/-- C9 (witness): a row whose start_time value fails to parse is rejected
with the timestamp reason before any other column is read; the row holds no
other key, yet no KeyError is raised. -/
theorem validate_order_short_circuit_witness :
    fieldCheckerR [("start_time", PyVal.str "nope")] = .ok (.rejected .invalidTimestamp) :=
  (validate_order_short_circuit [("start_time", PyVal.str "nope")]).1
    (PyVal.str "nope") (by decide) (by decide)

/-- C6: a Raw Row whose two timestamp fields parse in the MM/DD/YYYY HH:MM
format and whose four integer fields are digits-only is accepted:
field_checker returns a Typed Row holding the converted POSIX timestamps
and integers in the governed fields and exactly the raw value of the input
row in every other field. -/
theorem validate_wellformed_row (row : Row) (s1 s2 d1 d2 d3 d4 : String) (t1 t2 : Int)
    (h1 : lookup? row "start_time" = some (.str s1)) (hp1 : parseTimestamp s1 = some t1)
    (h2 : lookup? row "end_time" = some (.str s2)) (hp2 : parseTimestamp s2 = some t2)
    (h3 : lookup? row "trip_id" = some (.str d1)) (hd1 : pyIsdigit d1 = true)
    (h4 : lookup? row "duration" = some (.str d2)) (hd2 : pyIsdigit d2 = true)
    (h5 : lookup? row "bike_id" = some (.str d3)) (hd3 : pyIsdigit d3 = true)
    (h6 : lookup? row "plan_duration" = some (.str d4)) (hd4 : pyIsdigit d4 = true) :
    ∃ t, field_checker row = .ok (some t)
      ∧ lookup? t "start_time" = some (.floatv t1)
      ∧ lookup? t "end_time" = some (.floatv t2)
      ∧ lookup? t "trip_id" = some (.intv (digitsToNat d1))
      ∧ lookup? t "duration" = some (.intv (digitsToNat d2))
      ∧ lookup? t "bike_id" = some (.intv (digitsToNat d3))
      ∧ lookup? t "plan_duration" = some (.intv (digitsToNat d4))
      ∧ ∀ k, k ∉ governedFields → lookup? t k = lookup? row k := by
  have hcv1 : _convert_posix_time (.str s1) = some t1 := by
    simp [_convert_posix_time, strptimeTimestamp, hp1]
  have hcv2 : _convert_posix_time (.str s2) = some t2 := by
    simp [_convert_posix_time, strptimeTimestamp, hp2]
  have hloop1 := timeLoop_ok_eq row (.str s1) (.str s2) t1 t2 h1 hcv1 h2 hcv2
  set rY := setVal (setVal row "start_time" (PyVal.floatv t1)) "end_time" (PyVal.floatv t2)
    with hrY
  have hc1 := convert_int_of_isdigit d1 hd1
  have hc2 := convert_int_of_isdigit d2 hd2
  have hc3 := convert_int_of_isdigit d3 hd3
  have hc4 := convert_int_of_isdigit d4 hd4
  have hl3 : lookup? rY "trip_id" = some (.str d1) := by
    rw [hrY, lookup_set2_other row "start_time" "end_time" "trip_id" _ _ (by decide) (by decide)]
    exact h3
  have hl4 : lookup? rY "duration" = some (.str d2) := by
    rw [hrY, lookup_set2_other row "start_time" "end_time" "duration" _ _ (by decide) (by decide)]
    exact h4
  have hl5 : lookup? rY "bike_id" = some (.str d3) := by
    rw [hrY, lookup_set2_other row "start_time" "end_time" "bike_id" _ _ (by decide) (by decide)]
    exact h5
  have hl6 : lookup? rY "plan_duration" = some (.str d4) := by
    rw [hrY, lookup_set2_other row "start_time" "end_time" "plan_duration" _ _ (by decide) (by decide)]
    exact h6
  have hloop2 := intLoop_ok_eq rY (.str d1) (.str d2) (.str d3) (.str d4)
    (.intv (digitsToNat d1)) (.intv (digitsToNat d2)) (.intv (digitsToNat d3))
    (.intv (digitsToNat d4)) hl3 hc1 hl4 hc2 hl5 hc3 hl6 hc4
  refine ⟨setVal (setVal (setVal (setVal rY "trip_id" (PyVal.intv (digitsToNat d1)))
      "duration" (PyVal.intv (digitsToNat d2))) "bike_id" (PyVal.intv (digitsToNat d3)))
      "plan_duration" (PyVal.intv (digitsToNat d4)),
    ?_, ?_, ?_, ?_, ?_, ?_, ?_, ?_⟩
  · simp only [field_checker_eq, hloop1, hloop2]
  · rw [lookup_set2_other _ "bike_id" "plan_duration" "start_time" _ _ (by decide) (by decide),
      lookup_set2_other _ "trip_id" "duration" "start_time" _ _ (by decide) (by decide),
      hrY, lookup_set_other _ "end_time" "start_time" _ (by decide), lookup_set_self]
  · rw [lookup_set2_other _ "bike_id" "plan_duration" "end_time" _ _ (by decide) (by decide),
      lookup_set2_other _ "trip_id" "duration" "end_time" _ _ (by decide) (by decide),
      hrY, lookup_set_self]
  · rw [lookup_set2_other _ "bike_id" "plan_duration" "trip_id" _ _ (by decide) (by decide),
      lookup_set_other _ "duration" "trip_id" _ (by decide), lookup_set_self]
  · rw [lookup_set2_other _ "bike_id" "plan_duration" "duration" _ _ (by decide) (by decide),
      lookup_set_self]
  · rw [lookup_set_other _ "plan_duration" "bike_id" _ (by decide), lookup_set_self]
  · rw [lookup_set_self]
  · intro k hk
    have hn1 : k ≠ "start_time" := by rintro rfl; exact hk (by decide)
    have hn2 : k ≠ "end_time" := by rintro rfl; exact hk (by decide)
    have hn3 : k ≠ "trip_id" := by rintro rfl; exact hk (by decide)
    have hn4 : k ≠ "duration" := by rintro rfl; exact hk (by decide)
    have hn5 : k ≠ "bike_id" := by rintro rfl; exact hk (by decide)
    have hn6 : k ≠ "plan_duration" := by rintro rfl; exact hk (by decide)
    rw [lookup_set2_other _ "bike_id" "plan_duration" k _ _ (Ne.symm hn5) (Ne.symm hn6),
      lookup_set2_other _ "trip_id" "duration" k _ _ (Ne.symm hn3) (Ne.symm hn4),
      hrY, lookup_set2_other row "start_time" "end_time" k _ _ (Ne.symm hn1) (Ne.symm hn2)]

/-- C6 (witness): the in-order well-formed row is accepted with the correct
POSIX timestamps and integers and untouched pass-through fields. -/
theorem validate_wellformed_row_witness :
    ∃ t, field_checker rawInOrder = .ok (some t)
      ∧ lookup? t "start_time" = some (.floatv 1622534400)
      ∧ lookup? t "end_time" = some (.floatv 1622535000)
      ∧ lookup? t "trip_id" = some (.intv (digitsToNat "900"))
      ∧ lookup? t "duration" = some (.intv (digitsToNat "600"))
      ∧ lookup? t "bike_id" = some (.intv (digitsToNat "101"))
      ∧ lookup? t "plan_duration" = some (.intv (digitsToNat "30"))
      ∧ ∀ k, k ∉ governedFields → lookup? t k = lookup? rawInOrder k :=
  validate_wellformed_row rawInOrder "06/01/2021 08:00" "06/01/2021 08:10"
    "900" "600" "101" "30" 1622534400 1622535000
    (by decide) (by decide) (by decide) (by decide) (by decide) (by decide)
    (by decide) (by decide) (by decide) (by decide) (by decide) (by decide)

/-- C5: a Raw Row with all governed columns present in which at least one
governed field fails its conversion rule is rejected: field_checker
returns None and the row is absent from the transform output; and every row
transform does emit has every governed field fully converted, so no
partially typed or null-field record is ever emitted. -/
theorem validate_all_or_nothing :
    (∀ row : Row, (∀ k ∈ governedFields, (lookup? row k).isSome) →
      ((∃ k ∈ timeFields, _convert_posix_time (valAt row k) = none) ∨
       (∃ k ∈ intFields, convert_int (valAt row k) = none)) →
      field_checker row = .ok none ∧
      ∀ pre post, transformRows (pre ++ row :: post) = transformRows (pre ++ post))
    ∧ (∀ (rows out : List Row), transformRows rows = .ok out →
        ∀ t ∈ out, governedTyped t) := by
  constructor
  · intro row hkeys hfail
    have hfc : field_checker row = .ok none := by
      rcases hfail with hts | hint
      · have hloop1 : checkLoop posixPy timeFields row = .ok none := by
          apply checkLoop_fails posixPy timeFields row (by decide)
          · intro k hk
            exact hkeys k (List.mem_append_left _ hk)
          · obtain ⟨k, hk, hn⟩ := hts
            exact ⟨k, hk, posixPy_none _ hn⟩
        simp only [field_checker_eq, hloop1]
      · obtain ⟨o, ho⟩ := checkLoop_no_error posixPy timeFields row (by decide)
          (fun k hk => hkeys k (List.mem_append_left _ hk))
        cases o with
        | none => simp only [field_checker_eq, ho]
        | some r1 =>
          obtain ⟨_, hpres⟩ := checkLoop_some_inv posixPy timeFields row r1 (by decide) ho
          have hloop2 : checkLoop convert_int intFields r1 = .ok none := by
            apply checkLoop_fails convert_int intFields r1 (by decide)
            · intro k hk
              rw [hpres k (int_not_time k hk)]
              exact hkeys k (List.mem_append_right _ hk)
            · obtain ⟨k, hk, hn⟩ := hint
              refine ⟨k, hk, ?_⟩
              simp only [valAt, hpres k (int_not_time k hk)]
              exact hn
          simp only [field_checker_eq, ho, hloop2]
    exact ⟨hfc, fun pre post => transform_skip row hfc pre post⟩
  · intro rows out h t ht
    obtain ⟨r, _, hr⟩ := transform_mem rows out h t ht
    exact field_checker_some_inv r t hr

/-- C5 (witness): the row whose trip_id is 12.0 is rejected and dropped
from the transform output while the surrounding rows are kept. -/
theorem validate_all_or_nothing_witness :
    field_checker rawBadTrip = .ok none ∧
    transformRows ([rawInOrder] ++ rawBadTrip :: []) = transformRows ([rawInOrder] ++ []) := by
  have h := validate_all_or_nothing.1 rawBadTrip (by decide)
    (Or.inr ⟨"trip_id", by decide, by decide⟩)
  exact ⟨h.1, h.2 [rawInOrder] []⟩

end IndegoEtl
